import Mathlib

/-
Verification of the frame-orchestration layer of a software-rasterizer demo:
per-frame depth-attachment validation, framebuffer clearing, instanced
transform/color generation, the shader-stage contract, and the orbiting
camera update. Each definition is a shallow embedding of the corresponding
C++ routine in src/main.cpp; machine integers are modelled as Nat (all
intermediate values stay below 2^32, so uint32_t arithmetic is exact),
float arithmetic is modelled exactly over ℝ (ℚ for plain clear values).
-/

namespace RastTest

/-! ## Images, pixels, framebuffers (graphics/image.h, graphics/rasterizer.h) -/

/-- An allocated image: `image_t` as this layer observes it (its `width` and
`height` fields). -/
structure Image where
  width : Nat
  height : Nat
deriving DecidableEq

/-- `image_pixel`: a union of a packed 32-bit color and a float depth value. -/
inductive ImagePixel where
  | color (value : Nat)
  | depth (value : ℚ)
deriving DecidableEq

/-- The `framebuffer` record: an attachment count, the attachment images
(null pointers modelled as `none`) and the current width/height. -/
structure Framebuffer where
  attachment_count : Nat
  attachments : List (Option Image)
  width : Nat
  height : Nat
deriving DecidableEq

/-- A command received by the opaque rasterizer backend. -/
inductive RastCmd where
  | framebuffer_clear (fb : Framebuffer) (clearValues : List ImagePixel)
deriving DecidableEq

/-- What one call to `Rasterizer::ClearFramebuffer` does: the commands the
rasterizer receives, the runtime error thrown (if any), and the framebuffer
record afterwards. -/
structure ClearOutcome where
  sent : List RastCmd
  thrown : Option String
  fb : Framebuffer
deriving DecidableEq

/-- `Rasterizer::ClearFramebuffer` (main.cpp lines 86-92): throw
"Attachment size mismatch!" when the clear-value count differs from the
framebuffer's attachment count, otherwise forward the clear to the
rasterizer via `framebuffer_clear`.  The function never mutates the
framebuffer record itself. -/
def ClearFramebuffer (fb : Framebuffer) (clearValues : List ImagePixel) : ClearOutcome :=
  if clearValues.length ≠ fb.attachment_count then
    { sent := [], thrown := some "Attachment size mismatch!", fb := fb }
  else
    { sent := [RastCmd.framebuffer_clear fb clearValues], thrown := none, fb := fb }

/-! ## Depth-buffer validation (main.cpp lines 178-194) -/

/-- `IsDepthBufferValid` (main.cpp lines 178-184): a null buffer is invalid;
otherwise the buffer is valid exactly when its dimensions match. -/
def IsDepthBufferValid (buffer : Option Image) (width height : Nat) : Bool :=
  match buffer with
  | none => false
  | some img => img.width == width && img.height == height

/-- What one call to `ValidateDepthBuffer` does: the resulting depth buffer,
the images actually freed (`image_free` on a null pointer frees nothing) and
the images allocated. -/
structure ValidateOutcome where
  buffer : Option Image
  freed : List Image
  allocated : List Image
deriving DecidableEq

/-- `ValidateDepthBuffer` (main.cpp lines 186-194), with the window's live
framebuffer size passed as `width`/`height`: when the current buffer is
invalid for those dimensions, free it and allocate a fresh depth image at
the queried dimensions; otherwise leave it untouched. -/
def ValidateDepthBuffer (buffer : Option Image) (width height : Nat) : ValidateOutcome :=
  if IsDepthBufferValid buffer width height then
    { buffer := buffer, freed := [], allocated := [] }
  else
    { buffer := some { width := width, height := height },
      freed := buffer.toList,
      allocated := [{ width := width, height := height }] }

/-- After any validation call the depth buffer holds exactly the queried
dimensions. -/
theorem validateDepthBuffer_buffer_eq (buffer : Option Image) (w h : Nat) :
    (ValidateDepthBuffer buffer w h).buffer = some { width := w, height := h } := by
  rcases buffer with _ | ⟨iw, ih⟩
  · rfl
  · unfold ValidateDepthBuffer IsDepthBufferValid
    by_cases hw : iw = w
    · by_cases hh : ih = h
      · simp [hw, hh]
      · simp [hw, hh]
    · simp [hw]

/-! ## Per-frame attachment handling (main.cpp lines 325-329) -/

/-- One frame's attachment handling, as the loop body performs it before the
clear and the indexed draw are issued: query the framebuffer size from the
window, rebind attachment 0 to the backbuffer (an image the presentation
surface reports at exactly the queried framebuffer size), and validate the
depth attachment in slot 1.  Returns the framebuffer the clear/draw calls
receive together with the validation outcome. -/
def FrameAttachments (depth : Option Image) (width height : Nat) :
    Framebuffer × ValidateOutcome :=
  let backbuffer : Image := { width := width, height := height }
  let v := ValidateDepthBuffer depth width height
  ({ attachment_count := 2, attachments := [some backbuffer, v.buffer],
     width := width, height := height }, v)

/-! ## Claim theorems: clearing and depth validation -/

/-- C1: clearing a framebuffer with exactly `attachment_count` clear values
forwards the clear to the rasterizer and throws nothing; any other count
throws the configuration-mismatch runtime error and forwards nothing (the
outcome is a plain value: there is no retry path). -/
theorem clearFramebuffer_count_contract (fb : Framebuffer) (cv : List ImagePixel) :
    (ClearFramebuffer fb cv).thrown =
      (if cv.length = fb.attachment_count then none else some "Attachment size mismatch!") ∧
    (ClearFramebuffer fb cv).sent =
      (if cv.length = fb.attachment_count then [RastCmd.framebuffer_clear fb cv] else []) := by
  unfold ClearFramebuffer
  by_cases h : cv.length = fb.attachment_count <;> simp [h]

/-- C10: on a count mismatch the error is thrown before `framebuffer_clear`
is invoked, so the rasterizer receives no command and the framebuffer record
is left unchanged. -/
theorem clearFramebuffer_error_atomic (fb : Framebuffer) (cv : List ImagePixel)
    (h : cv.length ≠ fb.attachment_count) :
    (ClearFramebuffer fb cv).sent = [] ∧
    (ClearFramebuffer fb cv).fb = fb ∧
    (ClearFramebuffer fb cv).thrown = some "Attachment size mismatch!" := by
  unfold ClearFramebuffer
  simp [h]

/-- The reference scenario's framebuffer record: two attachments (color and
depth), initially both null, at the 1600 by 900 startup size. -/
def referenceFb : Framebuffer :=
  { attachment_count := 2, attachments := [none, none], width := 1600, height := 900 }

/-- A deliberately short clear-value list: only the color clear value. -/
def shortClearValues : List ImagePixel := [ImagePixel.color 0x787878FF]

/-- C10 witness: a two-attachment framebuffer cleared with a single clear
value sends nothing to the rasterizer, leaves the record unchanged and
throws the mismatch error. -/
theorem clearFramebuffer_error_atomic_witness :
    (ClearFramebuffer referenceFb shortClearValues).sent = [] ∧
    (ClearFramebuffer referenceFb shortClearValues).fb = referenceFb ∧
    (ClearFramebuffer referenceFb shortClearValues).thrown =
      some "Attachment size mismatch!" :=
  clearFramebuffer_error_atomic referenceFb shortClearValues (by decide)

/-- C7: validating twice with the same dimensions, starting from an absent
(null) depth buffer, allocates exactly once on the first call and not at all
on the second. -/
theorem validateDepthBuffer_idempotent (w h : Nat) :
    (ValidateDepthBuffer none w h).allocated.length = 1 ∧
    (ValidateDepthBuffer (ValidateDepthBuffer none w h).buffer w h).allocated.length = 0 := by
  constructor
  · simp [ValidateDepthBuffer, IsDepthBufferValid]
  · rw [validateDepthBuffer_buffer_eq]
    simp [ValidateDepthBuffer, IsDepthBufferValid]

/-- C6: validating at `dimsA` and then at different `dimsB` frees exactly the
one old depth image and allocates exactly one new image, and the resulting
depth attachment reports dimensions `dimsB`. -/
theorem validateDepthBuffer_resize (buffer : Option Image) (wA hA wB hB : Nat)
    (hne : (wA, hA) ≠ (wB, hB)) :
    (ValidateDepthBuffer (ValidateDepthBuffer buffer wA hA).buffer wB hB).freed =
      [{ width := wA, height := hA }] ∧
    (ValidateDepthBuffer (ValidateDepthBuffer buffer wA hA).buffer wB hB).allocated =
      [{ width := wB, height := hB }] ∧
    (ValidateDepthBuffer (ValidateDepthBuffer buffer wA hA).buffer wB hB).buffer =
      some { width := wB, height := hB } := by
  rw [validateDepthBuffer_buffer_eq]
  have hinvalid : IsDepthBufferValid (some { width := wA, height := hA }) wB hB = false := by
    unfold IsDepthBufferValid
    simp only [Bool.and_eq_false_iff, beq_eq_false_iff_ne]
    by_cases hw : wA = wB
    · right
      intro hh
      exact hne (by simp [hw, hh])
    · left
      exact hw
  unfold ValidateDepthBuffer
  simp [hinvalid]

/-- C6 witness: resizing the validated depth buffer from 1600 by 900 to 800
by 600 frees the old image, allocates one image and reports 800 by 600. -/
theorem validateDepthBuffer_resize_witness :
    (ValidateDepthBuffer (ValidateDepthBuffer none 1600 900).buffer 800 600).freed =
      [{ width := 1600, height := 900 }] ∧
    (ValidateDepthBuffer (ValidateDepthBuffer none 1600 900).buffer 800 600).allocated =
      [{ width := 800, height := 600 }] ∧
    (ValidateDepthBuffer (ValidateDepthBuffer none 1600 900).buffer 800 600).buffer =
      some { width := 800, height := 600 } :=
  validateDepthBuffer_resize none 1600 900 800 600 (by decide)

/-- C2: in every frame, the framebuffer handed to the clear and the indexed
draw carries a color attachment and a depth attachment of identical
dimensions (the queried framebuffer size); and precisely when the incoming
depth buffer was absent or mismatched, one depth image at the current
framebuffer dimensions was allocated before the draw. -/
theorem frame_depth_matches_color (depth : Option Image) (w h : Nat) :
    (FrameAttachments depth w h).1.attachments =
      [some { width := w, height := h }, some { width := w, height := h }] ∧
    (FrameAttachments depth w h).2.allocated =
      (if IsDepthBufferValid depth w h then [] else [{ width := w, height := h }]) := by
  constructor
  · simp [FrameAttachments, validateDepthBuffer_buffer_eq]
  · by_cases hvalid : IsDepthBufferValid depth w h = true
    · simp [FrameAttachments, ValidateDepthBuffer, hvalid]
    · simp only [Bool.not_eq_true] at hvalid
      simp [FrameAttachments, ValidateDepthBuffer, hvalid]

/-! ## Camera update (main.cpp lines 331-352)

Float arithmetic is modelled exactly over ℝ; `0.1` denotes the real 1/10. -/

/-- The eye position the loop derives from an orbit angle: cos/sin of θ, the
elevation `phi = cosTheta * π / 4`, the distance `|cosTheta| * 5`, and the
eye `(cosTheta*cosPhi*d, sinPhi*d, sinTheta*cosPhi*d)` (main.cpp lines
335-346), looking at the origin with up = +Y. -/
noncomputable def CameraEye (cameraTheta : ℝ) : ℝ × ℝ × ℝ :=
  let cosTheta := Real.cos cameraTheta
  let sinTheta := Real.sin cameraTheta
  let phi := cosTheta * Real.pi / 4
  let cosPhi := Real.cos phi
  let sinPhi := Real.sin phi
  let cameraDistance := |cosTheta| * 5
  (cosTheta * cosPhi * cameraDistance, sinPhi * cameraDistance,
   sinTheta * cosPhi * cameraDistance)

/-- One frame's camera update, exactly in the loop body's order (main.cpp
lines 335-346): cosTheta/sinTheta and phi are computed from the current
`cameraTheta`, then `cameraTheta += delta * 0.1`, then the distance and eye
are computed from the saved cosTheta/sinTheta/phi.  Returns the next frame's
orbit angle and this frame's eye position. -/
noncomputable def CameraFrame (cameraTheta delta : ℝ) : ℝ × (ℝ × ℝ × ℝ) :=
  let cosTheta := Real.cos cameraTheta
  let sinTheta := Real.sin cameraTheta
  let phi := cosTheta * Real.pi / 4
  let cosPhi := Real.cos phi
  let sinPhi := Real.sin phi
  let cameraTheta2 := cameraTheta + delta * 0.1
  let cameraDistance := |cosTheta| * 5
  (cameraTheta2,
   (cosTheta * cosPhi * cameraDistance, sinPhi * cameraDistance,
    sinTheta * cosPhi * cameraDistance))

/-- The claim's version of the frame update, written from the claim's words
for comparison with `CameraFrame` (which is translated from the code): the
orbit angle is advanced first, and cos/sin, phi, the distance and the eye
are all derived from the already-advanced angle. -/
noncomputable def CameraFrameClaimed (cameraTheta delta : ℝ) : ℝ × (ℝ × ℝ × ℝ) :=
  let cameraTheta2 := cameraTheta + delta * 0.1
  (cameraTheta2, CameraEye cameraTheta2)

/-- Folding `CameraFrame` over a list of per-frame time deltas: the final
orbit angle and the per-frame eye positions, in order. -/
noncomputable def RunCamera (cameraTheta : ℝ) : List ℝ → ℝ × List (ℝ × ℝ × ℝ)
  | [] => (cameraTheta, [])
  | delta :: rest =>
    let step := CameraFrame cameraTheta delta
    let next := RunCamera step.1 rest
    (next.1, step.2 :: next.2)

/-- A frame's eye position is `CameraEye` of the pre-advance orbit angle,
and the angle the next frame sees is the old angle plus `delta * 0.1`. -/
theorem cameraFrame_eq (cameraTheta delta : ℝ) :
    CameraFrame cameraTheta delta = (cameraTheta + delta * 0.1, CameraEye cameraTheta) := rfl

/-- Over any delta sequence the orbit angle integrates linearly. -/
theorem runCamera_theta (cameraTheta : ℝ) (deltas : List ℝ) :
    (RunCamera cameraTheta deltas).1 = cameraTheta + 0.1 * deltas.sum := by
  induction deltas generalizing cameraTheta with
  | nil => simp [RunCamera]
  | cons d rest ih =>
    simp only [RunCamera, cameraFrame_eq, List.sum_cons, ih]
    ring

/-- With every delta zero, every frame sees the same orbit angle and hence
the same eye position. -/
theorem runCamera_static (cameraTheta : ℝ) (deltas : List ℝ) (h : ∀ d ∈ deltas, d = 0) :
    (RunCamera cameraTheta deltas).2 =
      List.replicate deltas.length (CameraEye cameraTheta) := by
  induction deltas generalizing cameraTheta with
  | nil => simp [RunCamera]
  | cons d rest ih =>
    have hd : d = 0 := h d (List.mem_cons_self d rest)
    have hsame : cameraTheta + d * 0.1 = cameraTheta := by rw [hd]; ring
    simp only [RunCamera, cameraFrame_eq, hsame, List.length_cons, List.replicate_succ]
    exact congrArg _ (ih cameraTheta fun x hx => h x (List.mem_cons_of_mem d hx))

/-- C3 counterexample: the claim says θ is advanced first and the eye is
derived from the already-advanced θ; at θ = 0 with delta = 5π the code's
frame differs from that reading (the code's eye has height 5·sin(π/4) > 0
while the advanced angle π/2 would give distance 0 and eye at the origin). -/
theorem cameraFrame_advance_first_false :
    CameraFrame 0 (5 * Real.pi) ≠ CameraFrameClaimed 0 (5 * Real.pi) := by
  intro h
  have hy := congrArg (fun p => p.2.2.1) h
  simp only [CameraFrame, CameraFrameClaimed, CameraEye] at hy
  have hth : (0 : ℝ) + 5 * Real.pi * 0.1 = Real.pi / 2 := by ring
  rw [hth] at hy
  simp [Real.cos_pi_div_two, Real.sin_pi_div_four, Real.cos_zero, Real.sin_zero] at hy

/-- C3 (amended): each frame derives cosθ/sinθ, the elevation
φ = cosθ·(π/4), the distance |cosθ|·5 and the eye from the current,
pre-advance θ; the advance of θ by delta × 0.1 (textually interleaved
between φ and the distance) only affects the angle the next frame sees. -/
theorem cameraFrame_derives_then_advances (cameraTheta delta : ℝ) :
    CameraFrame cameraTheta delta =
      (cameraTheta + delta * 0.1,
       (Real.cos cameraTheta * Real.cos (Real.cos cameraTheta * Real.pi / 4) *
          (|Real.cos cameraTheta| * 5),
        Real.sin (Real.cos cameraTheta * Real.pi / 4) * (|Real.cos cameraTheta| * 5),
        Real.sin cameraTheta * Real.cos (Real.cos cameraTheta * Real.pi / 4) *
          (|Real.cos cameraTheta| * 5))) := rfl

/-- C4: for every delta sequence the final orbit angle from θ = 0 equals
0.1 times the sum of the deltas (so deltas summing to T yield θ = 0.1·T),
and when every delta is 0 the angle never advances and every frame's eye
position is the same static `CameraEye 0`. -/
theorem camera_orbit_integration (deltas : List ℝ) :
    (RunCamera 0 deltas).1 = 0.1 * deltas.sum ∧
    ((∀ d ∈ deltas, d = 0) →
      (RunCamera 0 deltas).2 = List.replicate deltas.length (CameraEye 0)) := by
  constructor
  · rw [runCamera_theta]
    ring
  · intro h
    exact runCamera_static 0 deltas h

/-! ## Instance generation (main.cpp lines 241-283)

glm stores matrices column-major (`m[col][row]`) and composes with column
vectors, so `glm::mat4` entry `m[c][r]` is row `r`, column `c` of the
mathematical matrix and `A * B` is the ordinary matrix product. -/

/-- The scale matrix built in the loop: identity with the three upper
diagonal entries multiplied by 0.25 (main.cpp lines 252-256). -/
noncomputable def scaleMatrix : Matrix (Fin 4) (Fin 4) ℝ :=
  Matrix.of ![![0.25, 0, 0, 0], ![0, 0.25, 0, 0], ![0, 0, 0.25, 0], ![0, 0, 0, 1]]

/-- The rotation-about-Y matrix built in the loop (main.cpp lines 261-273):
identity with `m[0][0] = cos`, `m[2][0] = -sin`, `m[0][2] = sin`,
`m[2][2] = cos`, i.e. rows `(cos, 0, -sin, 0)` and `(sin, 0, cos, 0)`. -/
noncomputable def rotationMatrix (theta : ℝ) : Matrix (Fin 4) (Fin 4) ℝ :=
  Matrix.of ![![Real.cos theta, 0, -Real.sin theta, 0],
              ![0, 1, 0, 0],
              ![Real.sin theta, 0, Real.cos theta, 0],
              ![0, 0, 0, 1]]

/-- The translation matrix built in the loop: identity with
`m[3][2] = -0.5`, a translation by (0, 0, -0.5) (main.cpp lines 276-279). -/
noncomputable def translationMatrix : Matrix (Fin 4) (Fin 4) ℝ :=
  Matrix.of ![![1, 0, 0, 0], ![0, 1, 0, 0], ![0, 0, 1, -0.5], ![0, 0, 0, 1]]

/-- The per-instance angle `pi * 2 * i / instances.size()` with
`instances.size() = 6` (main.cpp line 258). -/
noncomputable def instanceTheta (i : Nat) : ℝ := Real.pi * 2 * i / 6

/-- The model transform of instance `i`:
`displacement = rotation * translation; Model = scale * displacement`
(main.cpp lines 281-282). -/
noncomputable def InstanceModel (i : Nat) : Matrix (Fin 4) (Fin 4) ℝ :=
  let displacement := rotationMatrix (instanceTheta i) * translationMatrix
  scaleMatrix * displacement

/-- The packed color of one instance (main.cpp lines 245-249): start from
0xFF, then for j = 0, 1, 2 draw a pseudo-random byte (`rand() & 0xFF`,
modelled by an arbitrary stream `rands`) and or it in shifted left by
`(j + 1) * 8`.  Every value stays below 2^32, so the uint32_t arithmetic is
exact over Nat. -/
def InstanceColor (rands : Nat → Nat) : Nat :=
  (List.range 3).foldl (fun color j => color ||| ((rands j &&& 0xFF) <<< ((j + 1) * 8))) 0xFF

/-- An `Instance` record: a 4x4 model transform and a packed color
(main.cpp lines 129-132). -/
structure Instance where
  Model : Matrix (Fin 4) (Fin 4) ℝ
  Color : Nat

/-- The startup loop filling the array of 6 instances (main.cpp lines
241-283); instance `i` consumes the stream entries `3*i`, `3*i+1`,
`3*i+2` for its three random color channels. -/
noncomputable def GenerateInstances (rands : Nat → Nat) : List Instance :=
  (List.range 6).map fun i =>
    { Model := InstanceModel i, Color := InstanceColor fun j => rands (3 * i + j) }

/-- Oring distributes over reduction modulo a power of two, bitwise. -/
theorem or_mod_two_pow (a b n : Nat) :
    (a ||| b) % 2 ^ n = a % 2 ^ n ||| b % 2 ^ n := by
  apply Nat.eq_of_testBit_eq
  intro i
  simp only [Nat.testBit_mod_two_pow, Nat.testBit_or]
  by_cases h : i < n <;> simp [h]

/-- A value shifted left by at least 8 bits vanishes modulo 2^8. -/
theorem shiftLeft_mod_two_pow_eight (x k : Nat) (hk : 8 ≤ k) : (x <<< k) % 2 ^ 8 = 0 := by
  rw [Nat.shiftLeft_eq]
  obtain ⟨m, rfl⟩ := Nat.exists_eq_add_of_le hk
  rw [pow_add, mul_comm (2 ^ 8) (2 ^ m), ← Nat.mul_assoc]
  exact Nat.mul_mod_left _ _

/-- Whatever the three random bytes are, the low byte of the packed color
is the forced 0xFF alpha. -/
theorem instanceColor_alpha (rands : Nat → Nat) : InstanceColor rands % 256 = 0xFF := by
  show InstanceColor rands % 2 ^ 8 = 0xFF
  simp only [InstanceColor, List.range_succ, List.range_zero, List.nil_append,
    List.cons_append, List.foldl_cons, List.foldl_nil]
  rw [or_mod_two_pow, or_mod_two_pow, or_mod_two_pow]
  rw [shiftLeft_mod_two_pow_eight _ _ (by norm_num),
    shiftLeft_mod_two_pow_eight _ _ (by norm_num),
    shiftLeft_mod_two_pow_eight _ _ (by norm_num)]
  decide

/-- C9: the generator yields exactly 6 instances, and every generated
instance's packed color has low byte 0xFF, whatever bytes the
pseudo-random stream supplies for the other three channels. -/
theorem generateInstances_count_alpha (rands : Nat → Nat) :
    (GenerateInstances rands).length = 6 ∧
    ((GenerateInstances rands).map Instance.Color).all (fun c => c % 256 == 0xFF) = true := by
  constructor
  · simp [GenerateInstances]
  · simp only [GenerateInstances, List.map_map, List.all_eq_true]
    intro c hc
    simp only [List.mem_map, List.mem_range, Function.comp] at hc
    obtain ⟨i, _, rfl⟩ := hc
    simp [instanceColor_alpha]

/-- C5: every generated model transform is `InstanceModel`, which composes
as scale times (rotation times translation) with θ = 2π·i/6 — rotation
applied before translation — so the instance origin lands at the rotated,
scaled offset (0.125·sinθ, 0, -0.125·cosθ) rather than at a
rotated-then-translated point. -/
theorem instanceModel_composition (rands : Nat → Nat) (i : Fin 6) :
    (GenerateInstances rands).map Instance.Model = (List.range 6).map InstanceModel ∧
    InstanceModel i = scaleMatrix * (rotationMatrix (instanceTheta i) * translationMatrix) ∧
    (InstanceModel i).mulVec ![0, 0, 0, 1] =
      ![0.125 * Real.sin (instanceTheta i), 0, -(0.125 * Real.cos (instanceTheta i)), 1] := by
  refine ⟨by simp [GenerateInstances], rfl, ?_⟩
  funext j
  fin_cases j <;>
    simp [InstanceModel, scaleMatrix, rotationMatrix, translationMatrix,
      Matrix.mulVec, Matrix.mul_apply, Matrix.dotProduct, Fin.sum_univ_four] <;>
    ring

/-! ## Shader stages (main.cpp lines 121-176) -/

/-- A `Vertex` record: a 3D position (main.cpp lines 125-127). -/
structure Vertex where
  Position : Fin 3 → ℝ

/-- The per-draw `Uniforms` block: projection and view matrices
(main.cpp lines 121-123). -/
structure Uniforms where
  Projection : Matrix (Fin 4) (Fin 4) ℝ
  View : Matrix (Fin 4) (Fin 4) ℝ

/-- The `WorkingData` scratch block threaded from the vertex invocation to
its paired fragment invocation (main.cpp lines 134-136). -/
structure WorkingData where
  Color : Nat

/-- `VertexShader` (main.cpp lines 156-171): extend the vertex position to
`vec4(Position, 1)`, apply Model, then View, then Projection, write the
4-component result to the position output, and store the instance's packed
color in the working-data block. -/
noncomputable def VertexShader (vertex : Vertex) (inst : Instance) (uniforms : Uniforms) :
    (Fin 4 → ℝ) × WorkingData :=
  let vertexPos : Fin 4 → ℝ := ![vertex.Position 0, vertex.Position 1, vertex.Position 2, 1]
  let worldPos := inst.Model.mulVec vertexPos
  let viewPos := uniforms.View.mulVec worldPos
  let screenPos := uniforms.Projection.mulVec viewPos
  (screenPos, { Color := inst.Color })

/-- `FragmentShader` (main.cpp lines 173-176): return the working-data
color unchanged. -/
def FragmentShader (workingData : WorkingData) : Nat := workingData.Color

/-- C8: for every (vertex, instance) invocation the vertex stage outputs
exactly Projection · View · Model · vec4(Position, 1) as the clip-space
position and stores the instance's packed color in the working-data block,
and the paired fragment invocation returns exactly that color. -/
theorem shader_stage_contract (vertex : Vertex) (inst : Instance) (uniforms : Uniforms) :
    (VertexShader vertex inst uniforms).1 =
      (uniforms.Projection * uniforms.View * inst.Model).mulVec
        ![vertex.Position 0, vertex.Position 1, vertex.Position 2, 1] ∧
    (VertexShader vertex inst uniforms).2.Color = inst.Color ∧
    FragmentShader (VertexShader vertex inst uniforms).2 = inst.Color := by
  refine ⟨?_, rfl, rfl⟩
  show Matrix.mulVec uniforms.Projection (Matrix.mulVec uniforms.View
    (Matrix.mulVec inst.Model _)) = _
  rw [Matrix.mulVec_mulVec, Matrix.mulVec_mulVec, Matrix.mul_assoc]

end RastTest
